import Mathlib

/-!
Shallow embedding of `src/app.py`, a two-route Flask application.

The application code registers two handlers (`hello` on `"/"` and
`new_route` on `"/new"`) and, when run as a script, starts the server on
host `0.0.0.0` with no explicit port. Request dispatch itself is performed
by the framework; its documented default behavior (exact match against the
registered rules, 404 for an unknown path, 405 for a known path with a
method outside the rules methods, GET/HEAD/OPTIONS as the default method
set of a rule) is modelled here explicitly, following the spec, since the
framework is not part of this repository.
-/

/-- HTTP methods relevant to the dispatch model. -/
inductive Method where
  | GET
  | HEAD
  | OPTIONS
  | POST
  | PUT
  | DELETE
  | PATCH
deriving DecidableEq, Repr

/-- An incoming HTTP request: method, path, and the request content the
handlers never read (query string, headers, body). -/
structure Request where
  method : Method
  path : String
  query : String
  headers : List (String × String)
  body : String
deriving Repr

/-- An HTTP response: status code and body. -/
structure Response where
  status : Nat
  body : String
deriving DecidableEq, Repr

/-- The handler registered on `"/"` in `src/app.py` (`def hello():`).
It takes no arguments and returns a constant string. -/
def hello : Unit → String := fun _ => "Hello, from Flask App updated!"

/-- The handler registered on `"/new"` in `src/app.py` (`def new_route():`).
It takes no arguments and returns a constant string. -/
def new_route : Unit → String := fun _ => "This is a new route!"

/-- A routing rule: a path literal, the allowed methods, and the handler. -/
structure Rule where
  rule : String
  methods : List Method
  handler : Unit → String

/-- Modelled from the spec: the default method set the framework attaches
to a rule registered with a bare route decorator — GET, plus the
automatically added HEAD and OPTIONS. -/
def defaultMethods : List Method := [Method.GET, Method.HEAD, Method.OPTIONS]

/-- The route table built by the two route decorators in `src/app.py`. -/
def routes : List Rule :=
  [ { rule := "/", methods := defaultMethods, handler := hello },
    { rule := "/new", methods := defaultMethods, handler := new_route } ]

/-- The application state: its table of registered rules. The code in
`src/app.py` registers rules only at import time and stores nothing else. -/
structure AppState where
  urlMap : List Rule

/-- The application object of `src/app.py` after both decorators ran. -/
def app : AppState := { urlMap := routes }

/-- Modelled from the spec: the framework default not-found response,
not customized by this code. The model keeps its status and abstracts the
HTML body to a plain marker string. -/
def notFound : Response := { status := 404, body := "Not Found" }

/-- Modelled from the spec: the framework default response for a known
path requested with a method outside the rules method set. -/
def methodNotAllowed : Response := { status := 405, body := "Method Not Allowed" }

/-- Look up a request path in the rule table by exact string match. -/
def findRule (rules : List Rule) (p : String) : Option Rule :=
  rules.find? (fun r => r.rule == p)

/-- Modelled from the spec: the framework dispatch for this application.
Exact path match selects a rule; an unknown path yields the default 404;
a known path with a disallowed method yields 405; HEAD and OPTIONS are
answered automatically with an empty body; otherwise the handler runs and
its return value becomes a 200 body. -/
def dispatch (s : AppState) (req : Request) : Response :=
  match findRule s.urlMap req.path with
  | none => notFound
  | some r =>
    if req.method ∈ r.methods then
      match req.method with
      | Method.HEAD => { status := 200, body := "" }
      | Method.OPTIONS => { status := 200, body := "" }
      | _ => { status := 200, body := r.handler () }
    else methodNotAllowed

/-- Handling one request: the response, paired with the application state
after the request. The handlers mutate nothing, so the state is returned
unchanged. -/
def handleRequest (s : AppState) (req : Request) : Response × AppState :=
  (dispatch s req, s)

/-- Serving a whole sequence of requests, threading the state through. -/
def serveAll (s : AppState) : List Request → List Response × AppState
  | [] => ([], s)
  | req :: rest =>
    let step := handleRequest s req
    let tail := serveAll step.2 rest
    (step.1 :: tail.1, tail.2)

/-- Whether a request path selects a handler at all. -/
def selects (p : String) : Bool := (findRule app.urlMap p).isSome

/-- The arguments of a server start call: host, and an optional port
(`none` means the framework default is used). -/
structure RunConfig where
  host : String
  port : Option Nat
deriving DecidableEq, Repr

/-- Modelled from the spec: the framework default port, 5000. -/
def defaultPort : Nat := 5000

/-- The `app.run(host = 0.0.0.0)` call in the main guard of `src/app.py`:
only the host is passed, the port argument is omitted. -/
def mainRun : RunConfig := { host := "0.0.0.0", port := none }

/-- The port a run call actually listens on. -/
def effectivePort (c : RunConfig) : Nat := c.port.getD defaultPort

-- Helper lemmas shared by several claims.

/-- Serving any request list leaves the application state unchanged. -/
theorem serveAll_state (reqs : List Request) (s : AppState) :
    (serveAll s reqs).2 = s := by
  induction reqs with
  | nil => rfl
  | cons r rest ih => simpa [serveAll, handleRequest] using ih

/-- Dispatch reads only the method and path of a request. -/
theorem dispatch_congr (s : AppState) (r1 r2 : Request)
    (hp : r1.path = r2.path) (hm : r1.method = r2.method) :
    dispatch s r1 = dispatch s r2 := by
  unfold dispatch
  rw [hp, hm]

/-- C1: every GET request with path `"/"` gets status 200 and body
exactly `"Hello, from Flask App updated!"`. -/
theorem c1_get_root (req : Request)
    (hm : req.method = Method.GET) (hp : req.path = "/") :
    dispatch app req = { status := 200, body := "Hello, from Flask App updated!" } := by
  simp [dispatch, findRule, app, routes, List.find?, hp, hm, defaultMethods, hello]

/-- Witness for C1 at a concrete request. -/
theorem c1_get_root_witness :
    dispatch app { method := Method.GET, path := "/", query := "", headers := [], body := "" }
      = { status := 200, body := "Hello, from Flask App updated!" } :=
  c1_get_root _ rfl rfl

/-- C2: every GET request with path `"/new"` gets status 200 and body
exactly `"This is a new route!"`. -/
theorem c2_get_new (req : Request)
    (hm : req.method = Method.GET) (hp : req.path = "/new") :
    dispatch app req = { status := 200, body := "This is a new route!" } := by
  simp [dispatch, findRule, app, routes, List.find?, hp, hm, defaultMethods, new_route]

/-- Witness for C2 at a concrete request. -/
theorem c2_get_new_witness :
    dispatch app { method := Method.GET, path := "/new", query := "", headers := [], body := "" }
      = { status := 200, body := "This is a new route!" } :=
  c2_get_new _ rfl rfl

/-- C3: every GET request whose path is neither `"/"` nor `"/new"` gets
the framework default not-found response, status 404, with no custom
handler involved. -/
theorem c3_unknown_path (req : Request)
    (hm : req.method = Method.GET)
    (h1 : req.path ≠ "/") (h2 : req.path ≠ "/new") :
    dispatch app req = notFound ∧ notFound.status = 404 := by
  refine ⟨?_, rfl⟩
  have b1 : (("/" : String) == req.path) = false := by
    simpa [beq_iff_eq] using fun h => h1 h.symm
  have b2 : (("/new" : String) == req.path) = false := by
    simpa [beq_iff_eq] using fun h => h2 h.symm
  simp [dispatch, findRule, app, routes, List.find?, b1, b2]

/-- Witness for C3 at the concrete path of the spec scenario. -/
theorem c3_unknown_path_witness :
    dispatch app { method := Method.GET, path := "/unknown-path", query := "", headers := [], body := "" }
      = notFound ∧ notFound.status = 404 :=
  c3_unknown_path _ rfl (by decide) (by decide)

/-- C4: the response to a request depends only on its route (path and
method), never on how many or which requests were served before it:
dispatch after any two histories of served requests agrees on any two
requests to the same route. -/
theorem c4_history_independent (l1 l2 : List Request) (r1 r2 : Request)
    (hp : r1.path = r2.path) (hm : r1.method = r2.method) :
    dispatch (serveAll app l1).2 r1 = dispatch (serveAll app l2).2 r2 := by
  rw [serveAll_state, serveAll_state]
  exact dispatch_congr app r1 r2 hp hm

/-- Witness for C4: the same GET on `"/"` answered identically after an
empty history and after a three-request history. -/
theorem c4_history_independent_witness :
    dispatch (serveAll app []).2
        { method := Method.GET, path := "/", query := "", headers := [], body := "" }
      = dispatch (serveAll app
          [ { method := Method.GET, path := "/new", query := "", headers := [], body := "" },
            { method := Method.POST, path := "/", query := "", headers := [], body := "" },
            { method := Method.GET, path := "/missing", query := "", headers := [], body := "" } ]).2
        { method := Method.GET, path := "/", query := "a=1", headers := [("X", "y")], body := "" } :=
  c4_history_independent _ _ _ _ rfl rfl

/-- C5: after serving any sequence of requests whatsoever, the route
table still consists of exactly the two paths `"/"` and `"/new"`. -/
theorem c5_route_table_constant (reqs : List Request) :
    ((serveAll app reqs).2.urlMap.map Rule.rule) = ["/", "/new"] := by
  rw [serveAll_state]
  rfl

/-- C6: a request path selects a handler exactly when it is
character-for-character one of the two registered literals; anything
else, a trailing-slash variant included, selects none. -/
theorem c6_exact_match (p : String) :
    selects p = true ↔ p = "/" ∨ p = "/new" := by
  by_cases h1 : p = "/"
  · simp [selects, findRule, app, routes, List.find?, h1]
  · by_cases h2 : p = "/new"
    · simp [selects, findRule, app, routes, List.find?, h2]
    · have b1 : (("/" : String) == p) = false := by
        simpa [beq_iff_eq] using fun h => h1 h.symm
      have b2 : (("/new" : String) == p) = false := by
        simpa [beq_iff_eq] using fun h => h2 h.symm
      simp [selects, findRule, app, routes, List.find?, b1, b2, h1, h2]

/-- C7: handling a request leaves every part of the application state
unchanged, and so does serving any whole sequence of requests. -/
theorem c7_no_side_effects (req : Request) (reqs : List Request) :
    (handleRequest app req).2 = app ∧ (serveAll app reqs).2 = app :=
  ⟨rfl, serveAll_state reqs app⟩

/-- C8: the main-guard run call passes host `"0.0.0.0"` and omits the
port, so the framework default port 5000 is what the server listens on. -/
theorem c8_run_config :
    mainRun.host = "0.0.0.0" ∧ mainRun.port = none ∧
      effectivePort mainRun = defaultPort ∧ defaultPort = 5000 :=
  ⟨rfl, rfl, rfl, rfl⟩

/-- C9 counterexample: a HEAD request to the registered path `"/"` uses a
method other than GET, yet the response status is 200, not 405 — the
automatically added HEAD and OPTIONS methods are served, not rejected. -/
theorem c9_counterexample :
    (dispatch app { method := Method.HEAD, path := "/", query := "", headers := [], body := "" }).status
        = 200 ∧
      Method.HEAD ≠ Method.GET := by
  constructor
  · rfl
  · decide

/-- C9 amended: every request to a registered path `"/"` or `"/new"`
whose method lies outside the rules allowed set GET/HEAD/OPTIONS (for
example POST or PUT) gets the 405 method-not-allowed response, not a 200
and not a 404. -/
theorem c9_wrong_method (req : Request)
    (hp : req.path = "/" ∨ req.path = "/new")
    (hm : req.method ∉ defaultMethods) :
    dispatch app req = methodNotAllowed ∧
      methodNotAllowed.status = 405 ∧ methodNotAllowed ≠ notFound := by
  refine ⟨?_, rfl, by decide⟩
  rcases hp with hp | hp <;>
    simp [dispatch, findRule, app, routes, List.find?, hp, hm]

/-- Witness for the amended C9 at a concrete POST request. -/
theorem c9_wrong_method_witness :
    ( Method.POST ∉ defaultMethods ) ∧
      dispatch app { method := Method.POST, path := "/", query := "", headers := [], body := "" }
        = methodNotAllowed :=
  ⟨by decide,
    (c9_wrong_method
      { method := Method.POST, path := "/", query := "", headers := [], body := "" }
      (Or.inl rfl) (by decide)).1⟩

/-- C10: two GET requests to the same registered path that differ only in
query string, headers or body get identical responses — the handlers read
nothing from the request. -/
theorem c10_input_independent (r1 r2 : Request)
    (hreg : r1.path = "/" ∨ r1.path = "/new")
    (hp : r1.path = r2.path)
    (hm1 : r1.method = Method.GET) (hm2 : r2.method = Method.GET) :
    dispatch app r1 = dispatch app r2 :=
  dispatch_congr app r1 r2 hp (hm1.trans hm2.symm)

/-- Witness for C10: two GET requests on `"/new"` with different query
strings, headers and bodies answered identically. -/
theorem c10_input_independent_witness :
    dispatch app { method := Method.GET, path := "/new", query := "", headers := [], body := "" }
      = dispatch app
          { method := Method.GET, path := "/new", query := "token=s3cret",
            headers := [("X-Forwarded-For", "10.0.0.1")], body := "payload" } :=
  c10_input_independent _ _ (Or.inr rfl) rfl rfl rfl
